import Mathlib

/-!
Verification development for the Vocalite voice-assistant front end.

The definitions below are a shallow embedding of the client-side
orchestration core: the TTS web worker (`src/workers/tts.worker.ts`),
the `useTTS` hook (`src/hooks/useTTS.ts`) and the conversation
orchestrator component (`src/components/WebSpeechRecognition.tsx`).
Pure handler bodies become Lean functions; the event-driven runtime
becomes an explicit step function over a system state, driven by a
scheduler-chosen event list.  Timers (the 2 s generation debounce, the
300 ms pre-speak delay, the 1 s clear-response grace delay, the 2 s
init timeout) are embedded as dedicated events whose enabling guards
are exactly the conditions under which the source arms the timer; the
React cleanup semantics (a dependency change cancels the pending
timer) justify checking the guard at fire time.

One source-level subtlety is modelled explicitly: handlers registered
once in the mount effect (`recognition.onresult` and the timeout inside
`initialize`) close over the state values of the render in which they
were created, not over the current state.  The mount-render closure of
`sendToGemini` therefore sees `transcription = ""`, `isRecording =
false` and `ttsInitialized = false`; likewise the `initialize` timeout
sees the `isInitialized = false` that held when it was armed.
-/

namespace Vocalite

/-- JavaScript `String.prototype.trim()`: strip leading and trailing
whitespace.  Defined by structural recursion over the character list
so that it evaluates inside the kernel. -/
def jsTrim (s : String) : String :=
  ⟨((s.data.dropWhile Char.isWhitespace).reverse.dropWhile
      Char.isWhitespace).reverse⟩

/-- One entry of a `SpeechRecognitionResultList` slice delivered to
`recognition.onresult` (transcript text of the best alternative plus
the `isFinal` flag). -/
structure RecSeg where
  text : String
  isFinal : Bool
deriving DecidableEq, Repr

/-- Messages the TTS worker receives (`event.data` of
`self.onmessage` in `src/workers/tts.worker.ts`).  The `text` field of
a `SPEAK` message may be absent, hence `Option String`. -/
inductive WorkerIn where
  | initMsg (voiceId : Option String)
  | speakMsg (text : Option String) (voiceId : Option String)
  | getVoices
  | stopMsg
deriving DecidableEq, Repr

/-- Messages of the worker protocol flowing back to the `useTTS` hook
(the `TTSMessage` union in `src/hooks/useTTS.ts`).  `audioBuf` stands
for an `AUDIO` message carrying a synthesized buffer. -/
inductive WorkerOut where
  | ready (voiceId : String) (fallbackToMainThread : Bool)
  | voicesMsg (voices : List String) (fallbackToMainThread : Bool)
  | speakRequest (text : String) (voiceId : String) (fallbackToMainThread : Bool)
  | voicesRequest (fallbackToMainThread : Bool)
  | stopRequest (fallbackToMainThread : Bool)
  | errMsg (message : String)
  | audioBuf
  | downloadProgress (loaded total : Nat)
  | stoppedMsg
  | voiceChanged (voiceId : String)
  | removedMsg
deriving DecidableEq, Repr

/-- `true` exactly for an `AUDIO` message. -/
def WorkerOut.isAudio : WorkerOut → Bool
  | .audioBuf => true
  | _ => false

/-- `true` exactly for a `READY` message. -/
def WorkerOut.isReadyMsg : WorkerOut → Bool
  | .ready _ _ => true
  | _ => false

/-- `true` exactly for a `SPEAK_REQUEST` message. -/
def WorkerOut.isSpeakRequest : WorkerOut → Bool
  | .speakRequest _ _ _ => true
  | _ => false

/-- Module-level mutable state of `src/workers/tts.worker.ts`
(`isReady`, `useFallback`, `availableVoices`). -/
structure WorkerState where
  isReady : Bool
  useFallback : Bool
  availableVoices : List String
deriving DecidableEq, Repr

/-- Worker state before any message is processed. -/
def WorkerState.init : WorkerState :=
  { isReady := false, useFallback := false, availableVoices := [] }

/-- Build-time / platform facts the code consults: whether the Gemini
API key environment variable is configured, whether the `HEAD` probe of
the Piper model file succeeds, and the platform speech-synthesis voice
list. -/
structure Config where
  apiKeyConfigured : Bool
  modelOk : Bool
  platformVoices : List String
deriving DecidableEq, Repr

/-- The message handler of `src/workers/tts.worker.ts`, translated
case by case.  `INIT` probes the model file (its outcome
`cfg.modelOk`) but both branches reach the unconditional
`throw new Error('Piper TTS WASM files not available ...')`, so the
`catch` block always runs: the worker switches itself to fallback
mode, marks itself ready and posts `READY` (with
`fallbackToMainThread: true`) followed by `VOICES`.  `SPEAK` rejects
when not ready or when the text is missing / whitespace-only, and
otherwise posts a single `SPEAK_REQUEST` delegating synthesis to the
main thread.  `GET_VOICES` and `STOP` reply with `VOICES` resp.
`STOP_REQUEST`. -/
def workerStep (cfg : Config) (s : WorkerState) :
    WorkerIn → WorkerState × List WorkerOut
  | .initMsg _ =>
      -- the try-block throws regardless of cfg.modelOk; catch-block:
      let _ := cfg.modelOk
      ({ isReady := true, useFallback := true,
         availableVoices := ["browser-speech-synthesis"] },
       [.ready "browser-speech-synthesis" true,
        .voicesMsg ["browser-speech-synthesis"] true])
  | .speakMsg text voiceId =>
      if s.isReady = false then
        (s, [.errMsg "Worker not ready for SPEAK"])
      else
        match text with
        | none => (s, [.errMsg "No text provided"])
        | some t =>
            if jsTrim t = "" then
              (s, [.errMsg "No text provided"])
            else
              (s, [.speakRequest (jsTrim t)
                     (voiceId.getD "browser-speech-synthesis") true])
  | .getVoices =>
      (s, [.voicesMsg s.availableVoices s.useFallback])
  | .stopMsg =>
      (s, [.stopRequest true])

/-- State held by the `useTTS` hook: the React state cells
(`isInitialized`, `isLoading`, `isSpeaking`, `error`, `progress`,
`availableVoices`, `currentVoiceId`, `useFallback`), the hook-local
refs (`ttsActuallyStarted`, `hasSpokenResponse`, `speechSynthRef` as
`synthRefHeld`), and bookkeeping for an in-flight `speakWithBrowser`
promise: `browserInFlight` (spawned, not yet settled), `browserStarted`
(its utterance `onstart` fired) and `browserFromSpeak` (spawned from
`speak`, which attaches a `finally`, rather than from the
`SPEAK_REQUEST` handler, which attaches only a `catch`).
`initTimeoutArmed` records that `initialize` armed its fallback
timeout. -/
structure TTSState where
  isInitialized : Bool
  isLoading : Bool
  isSpeaking : Bool
  useFallback : Bool
  error : Option String
  progressVal : Option (Nat × Nat)
  availableVoices : List String
  currentVoiceId : Option String
  ttsActuallyStarted : Bool
  hasSpokenResponse : Bool
  synthRefHeld : Bool
  browserInFlight : Bool
  browserStarted : Bool
  browserFromSpeak : Bool
  initTimeoutArmed : Bool
deriving DecidableEq, Repr

/-- Hook state at mount. -/
def TTSState.init : TTSState :=
  { isInitialized := false, isLoading := false, isSpeaking := false,
    useFallback := false, error := none, progressVal := none,
    availableVoices := [], currentVoiceId := none,
    ttsActuallyStarted := false, hasSpokenResponse := false,
    synthRefHeld := false, browserInFlight := false,
    browserStarted := false, browserFromSpeak := false,
    initTimeoutArmed := false }

/-- The ambient `window.speechSynthesis` engine: its `speaking` and
`pending` flags. -/
structure Platform where
  speaking : Bool
  pending : Bool
deriving DecidableEq, Repr

/-- State of the `WebSpeechRecognition` component: the React state
cells (`isRecording`, `transcription`, `interimTranscript`, `error`,
`generatedResponse`, `isGenerating`) and the refs (`hasSpokenResponse`,
`ttsActuallyStarted`, `isTTSLocked`, `autoSpeakAttempts`). -/
structure CompState where
  isRecording : Bool
  transcription : String
  interimTranscript : String
  error : String
  generatedResponse : String
  isGenerating : Bool
  hasSpokenResponse : Bool
  ttsActuallyStarted : Bool
  isTTSLocked : Bool
  autoSpeakAttempts : Nat
deriving DecidableEq, Repr

/-- Component state at mount. -/
def CompState.init : CompState :=
  { isRecording := false, transcription := "", interimTranscript := "",
    error := "", generatedResponse := "", isGenerating := false,
    hasSpokenResponse := false, ttsActuallyStarted := false,
    isTTSLocked := false, autoSpeakAttempts := 0 }

/-- Whole-system state: component, hook, worker, platform synthesis
engine, the global `window.isTTSLocked` property (which no code in the
repository ever assigns, hence it starts as `none` and can at most be
written by the hook's release code when already present), and the two
message queues between hook and worker. -/
structure SysState where
  comp : CompState
  tts : TTSState
  worker : WorkerState
  plat : Platform
  windowIsTTSLocked : Option Bool
  toWorker : List WorkerIn
  fromWorker : List WorkerOut
deriving DecidableEq, Repr

/-- System state at page load. -/
def SysState.init : SysState :=
  { comp := CompState.init, tts := TTSState.init,
    worker := WorkerState.init, plat := { speaking := false, pending := false },
    windowIsTTSLocked := none, toWorker := [], fromWorker := [] }

/-- Externally observable actions a step can emit: starting the
reasoning-client fetch, and the `start()` / `stop()` calls on the
recognition engine. -/
inductive Action where
  | genRequest (payload : String)
  | recognitionStart
  | recognitionStop
deriving DecidableEq, Repr

/-- Set the component's user-facing error slot. -/
def setCompError (s : SysState) (e : String) : SysState :=
  { s with comp := { s.comp with error := e } }

/-- The hook's lock-release idiom
`if (typeof window !== 'undefined' && (window as any).isTTSLocked)
 { (window as any).isTTSLocked.current = false }`:
it writes only when a `window.isTTSLocked` object exists. -/
def releaseWindowLock (s : SysState) : SysState :=
  match s.windowIsTTSLocked with
  | some _ => { s with windowIsTTSLocked := some false }
  | none => s

/-- `stop` of `useTTS`: cancel the platform engine only when it is
speaking or pending, drop the retained utterance reference, clear
`isSpeaking` and clear the error slot. -/
def hookStop (s : SysState) : SysState :=
  let plat := if s.plat.speaking || s.plat.pending then
      ({ speaking := false, pending := false } : Platform)
    else s.plat
  { s with
      plat := plat,
      tts := { s.tts with
                  synthRefHeld := false, isSpeaking := false,
                  error := none } }

/-- Spawn an asynchronous `speakWithBrowser` run (its settlement and
`onstart` arrive as later events). -/
def spawnBrowserSpeech (s : SysState) (fromSpeak : Bool) : SysState :=
  { s with
      tts := { s.tts with
                  browserInFlight := true,
                  browserStarted := false,
                  browserFromSpeak := fromSpeak } }

/-- `speak` of `useTTS`: refuse while already speaking, error when not
initialized, otherwise clear the error and either run the main-thread
fallback (spawning `speakWithBrowser` with the `finally` release
attached) or post `SPEAK` to the worker. -/
def hookSpeak (s : SysState) (text : String) : SysState :=
  if s.tts.isSpeaking then s
  else if s.tts.isInitialized = false then
    { s with tts := { s.tts with error := some "TTS not initialized" } }
  else if s.tts.useFallback then
    spawnBrowserSpeech
      { s with tts := { s.tts with error := none, isSpeaking := true } } true
  else
    { s with
        tts := { s.tts with error := none, isSpeaking := true },
        toWorker := s.toWorker ++ [WorkerIn.speakMsg (some text) none] }

/-- The hook's `onmessage` handler for worker messages, translated
case by case from the `switch` in `useTTS`. -/
def hookHandle (cfg : Config) (s : SysState) : WorkerOut → SysState
  | .ready _ fb =>
      let s1 := { s with
                    tts := { s.tts with
                                isInitialized := true,
                                isLoading := false } }
      if fb then
        let s2 := { s1 with tts := { s1.tts with useFallback := true } }
        match cfg.platformVoices with
        | [] => s2  -- voiceschanged listener registered; list fills later
        | v0 :: _ =>
            { s2 with
                tts := { s2.tts with
                            availableVoices := cfg.platformVoices,
                            currentVoiceId :=
                              some (if v0 = "" then "default" else v0) } }
      else s1
  | .speakRequest _ _ fb =>
      if fb then spawnBrowserSpeech s false else s
  | .voicesRequest fb =>
      if fb then
        { s with tts := { s.tts with availableVoices := cfg.platformVoices } }
      else s
  | .stopRequest fb =>
      if fb then
        { s with
            plat := { speaking := false, pending := false },
            tts := { s.tts with error := none, isSpeaking := false } }
      else s
  | .stoppedMsg =>
      { s with tts := { s.tts with isSpeaking := false, error := none } }
  | .downloadProgress l t =>
      { s with tts := { s.tts with progressVal := some (l, t) } }
  | .audioBuf =>
      { s with tts := { s.tts with isSpeaking := true } }
  | .errMsg m =>
      { s with tts := { s.tts with error := some m, isSpeaking := false } }
  | .voicesMsg vs fb =>
      if fb = false then
        { s with tts := { s.tts with availableVoices := vs } }
      else s
  | .voiceChanged v =>
      { s with tts := { s.tts with currentVoiceId := some v } }
  | .removedMsg =>
      { s with
          tts := { s.tts with
                      currentVoiceId := none,
                      isInitialized := false } }

/-- Concatenation of the finalized segments of one result event, each
with its trailing space (`finalTranscript += transcript + " "`). -/
def finalsOf (rs : List RecSeg) : String :=
  rs.foldl (fun a r => if r.isFinal then a ++ r.text ++ " " else a) ""

/-- Concatenation of the non-final segments of one result event
(`interimTranscript += transcript`). -/
def interimsOf (rs : List RecSeg) : String :=
  rs.foldl (fun a r => if r.isFinal then a else a ++ r.text) ""

/-- The `sendToGemini` closure captured by `recognition.onresult` in
the mount effect.  It closed over the first render, where
`transcription = ""` and `ttsInitialized = false`; so after the API-key
check it always returns at the `!ttsInitialized` guard and never
reaches the fetch. -/
def sendToGeminiMount (cfg : Config) (s : SysState) : SysState :=
  if cfg.apiKeyConfigured = false then
    setCompError s "Gemini API key not configured"
  else s

/-- A current-render `sendToGemini` call (the debounce effect re-arms
whenever any captured dependency changes, so at fire time the closure
agrees with the current state): API-key check, TTS-readiness check,
stop the recognizer if recording, refuse an empty transcript, then
mark generation in flight and start the fetch.  The component's
`[isGenerating]` effect, which runs once `isGenerating` turns true, is
composed in: it resets `hasSpokenResponse` and `autoSpeakAttempts`. -/
def sendToGeminiFresh (cfg : Config) (s : SysState) : SysState × List Action :=
  if cfg.apiKeyConfigured = false then
    (setCompError s "Gemini API key not configured", [])
  else if s.tts.isInitialized = false then (s, [])
  else
    let acts := if s.comp.isRecording then [Action.recognitionStop] else []
    if s.comp.transcription = "" then
      (setCompError s "No transcription to send", acts)
    else
      ({ s with
           comp := { s.comp with
                        isGenerating := true,
                        generatedResponse := "",
                        hasSpokenResponse := false,
                        autoSpeakAttempts := 0 } },
       acts ++ [Action.genRequest (jsTrim s.comp.transcription)])

/-- `recognition.onresult`: split the result slice into finalized and
interim parts; when some segment finalized, append it to the
transcript, release the TTS lock and invoke the (mount-closure)
`sendToGemini`; in every case replace the interim segment. -/
def onResult (cfg : Config) (s : SysState) (rs : List RecSeg) : SysState :=
  let fT := finalsOf rs
  let s1 :=
    if fT ≠ "" then
      sendToGeminiMount cfg
        { s with
            comp := { s.comp with
                         transcription := s.comp.transcription ++ fT,
                         isTTSLocked := false } }
    else s
  { s1 with comp := { s1.comp with interimTranscript := interimsOf rs } }

/-- Arming condition of the 2 s generation-debounce timer (the guard
of the debounce `useEffect`); any change to a dependency cancels the
pending timer, so the guard also holds when the timer fires. -/
def debounceGuard (s : SysState) : Bool :=
  s.comp.isRecording && (jsTrim s.comp.transcription != "")
    && !s.comp.isGenerating && (s.comp.generatedResponse == "")

/-- Arming condition of the 300 ms auto-speak timer (the guard of the
auto-speak `useEffect`). -/
def autoSpeakGuard (s : SysState) : Bool :=
  (s.comp.generatedResponse != "") && s.tts.isInitialized
    && !s.tts.isSpeaking && (jsTrim s.comp.generatedResponse != "")
    && !s.comp.hasSpokenResponse

/-- Body of the auto-speak timer callback: the circuit breaker trips
at 3 attempts (mark spoken, force-release the lock, no error); an
already-held lock skips the attempt; otherwise count the attempt,
take the lock, reset the started flag, mark spoken and call
`speak(generatedResponse)`. -/
def autoSpeakBody (s : SysState) : SysState :=
  if s.comp.autoSpeakAttempts ≥ 3 then
    { s with
        comp := { s.comp with
                     hasSpokenResponse := true,
                     isTTSLocked := false } }
  else if s.comp.isTTSLocked then s
  else
    hookSpeak
      { s with
          comp := { s.comp with
                       autoSpeakAttempts := s.comp.autoSpeakAttempts + 1,
                       isTTSLocked := true,
                       ttsActuallyStarted := false,
                       hasSpokenResponse := true } }
      s.comp.generatedResponse

/-- Arming condition of the 1 s clear-response grace timer (the guard
of the clear-response `useEffect`): speaking just ended, a spoken
non-empty response is present, and TTS actually started. -/
def clearResponseGuard (s : SysState) : Bool :=
  !s.tts.isSpeaking && (s.comp.generatedResponse != "")
    && (jsTrim s.comp.generatedResponse != "")
    && s.comp.hasSpokenResponse && s.comp.ttsActuallyStarted

/-- Scheduler-chosen events driving the system: recognition callbacks,
user actions, timer firings, reasoning-client completions, the
asynchronous browser-synthesis outcomes, and message-queue
deliveries. -/
inductive Ev where
  | recStart
  | recResult (rs : List RecSeg)
  | recError (code msg : String)
  | recEnd
  | userStartRecording
  | userStopRecording
  | userClear
  | userStopSpeaking
  | debounceFire
  | genSuccess (text : String)
  | genFailure (msg : String)
  | autoSpeakFire
  | clearResponseFire
  | browserSpeechStart
  | browserResolveNoStart
  | browserReject (msg : String)
  | initCall (voiceId : Option String)
  | initTimeoutFire
  | workerProcess
  | hookRecv
deriving DecidableEq, Repr

/-- One step of the whole system.  Each case is the translation of the
corresponding source handler; timer events apply their body only when
the arming guard holds (React's effect cleanup cancels the timer
otherwise), and queue events deliver one pending message. -/
def sysStep (cfg : Config) (s : SysState) : Ev → SysState × List Action
  | .recStart =>
      ({ s with comp := { s.comp with isRecording := true, error := "" } }, [])
  | .recResult rs => (onResult cfg s rs, [])
  | .recError c m =>
      ({ s with
           comp := { s.comp with
                        error := "Speech recognition error: " ++ c ++ " - " ++ m,
                        isRecording := false } }, [])
  | .recEnd =>
      ({ s with
           comp := { s.comp with
                        isRecording := false,
                        interimTranscript := "" } }, [])
  | .userStartRecording =>
      if s.comp.isRecording then (s, [])
      else
        ({ s with comp := { s.comp with isTTSLocked := false } },
         [Action.recognitionStart])
  | .userStopRecording =>
      if s.comp.isRecording then (s, [Action.recognitionStop]) else (s, [])
  | .userClear =>
      (hookStop
        { s with
            comp := { s.comp with
                         transcription := "",
                         interimTranscript := "",
                         generatedResponse := "",
                         error := "" } }, [])
  | .userStopSpeaking => (hookStop s, [])
  | .debounceFire =>
      if debounceGuard s then sendToGeminiFresh cfg s else (s, [])
  | .genSuccess t =>
      if s.comp.isGenerating then
        if t ≠ "" then
          ({ s with
               comp := { s.comp with
                            generatedResponse := t,
                            isGenerating := false } }, [])
        else
          ({ s with
               comp := { s.comp with
                            error := "Failed to generate response: No generated text received from Gemini",
                            isGenerating := false } }, [])
      else (s, [])
  | .genFailure m =>
      if s.comp.isGenerating then
        ({ s with
             comp := { s.comp with
                          error := "Failed to generate response: " ++ m,
                          isGenerating := false } }, [])
      else (s, [])
  | .autoSpeakFire =>
      if autoSpeakGuard s then (autoSpeakBody s, []) else (s, [])
  | .clearResponseFire =>
      if clearResponseGuard s then
        ({ s with
             comp := { s.comp with
                          generatedResponse := "",
                          hasSpokenResponse := false,
                          ttsActuallyStarted := false } }, [])
      else (s, [])
  | .browserSpeechStart =>
      if s.tts.browserInFlight && !s.tts.browserStarted then
        ({ s with
             tts := { s.tts with
                         browserStarted := true,
                         isSpeaking := true,
                         ttsActuallyStarted := true,
                         hasSpokenResponse := true },
             plat := { s.plat with speaking := true } }, [])
      else (s, [])
  | .browserResolveNoStart =>
      -- speech never started: the source cancels the engine, clears
      -- isSpeaking, attempts the window-lock release and resolves;
      -- when spawned from speak, the finally attempts the release again
      if s.tts.browserInFlight && !s.tts.browserStarted then
        let s1 := { s with
                      plat := { speaking := false, pending := false },
                      tts := { s.tts with isSpeaking := false } }
        let s2 := releaseWindowLock s1
        let s3 := { s2 with tts := { s2.tts with browserInFlight := false } }
        (if s3.tts.browserFromSpeak then releaseWindowLock s3 else s3, [])
      else (s, [])
  | .browserReject m =>
      if s.tts.browserInFlight then
        let intr := (m.splitOn "interrupted").length > 1
          || (m.splitOn "canceled").length > 1
        let s1 := { s with tts := { s.tts with browserInFlight := false } }
        if s1.tts.browserFromSpeak then
          let s2 := { s1 with tts := { s1.tts with isSpeaking := false } }
          let s3 := if intr then s2
            else { s2 with
                     tts := { s2.tts with
                                 error := some ("TTS error: " ++ m) } }
          (releaseWindowLock s3, [])
        else
          (if intr then s1
           else { s1 with
                    tts := { s1.tts with
                                error := some ("Browser TTS error: " ++ m) } },
           [])
      else (s, [])
  | .initCall v =>
      if s.tts.isInitialized then (s, [])
      else
        ({ s with
             tts := { s.tts with
                         isLoading := true,
                         error := none,
                         initTimeoutArmed := true },
             toWorker := s.toWorker ++ [WorkerIn.initMsg v] }, [])
  | .initTimeoutFire =>
      -- the timeout closure captured isInitialized = false when armed,
      -- so its fallback branch always executes
      if s.tts.initTimeoutArmed then
        ({ s with
             tts := { s.tts with
                         useFallback := true,
                         isInitialized := true,
                         isLoading := false,
                         initTimeoutArmed := false } }, [])
      else (s, [])
  | .workerProcess =>
      match s.toWorker with
      | [] => (s, [])
      | m :: rest =>
          let p := workerStep cfg s.worker m
          ({ s with
               worker := p.1,
               toWorker := rest,
               fromWorker := s.fromWorker ++ p.2 }, [])
  | .hookRecv =>
      match s.fromWorker with
      | [] => (s, [])
      | m :: rest => (hookHandle cfg { s with fromWorker := rest } m, [])

/-- Run the system from a state over a list of events. -/
def runFrom (cfg : Config) (s : SysState) (evs : List Ev) : SysState :=
  evs.foldl (fun st e => (sysStep cfg st e).1) s

/-- Run the system from page load. -/
def runSys (cfg : Config) (evs : List Ev) : SysState :=
  runFrom cfg SysState.init evs

/-! ### Concrete fixtures used by witnesses and counterexamples -/

/-- A deployment with the API key configured, the Piper model probe
failing, and two platform voices. -/
def cfg0 : Config :=
  { apiKeyConfigured := true, modelOk := false,
    platformVoices := ["Alice", "Bob"] }

/-- A worker that has completed (fallback) initialization. -/
def wsReady : WorkerState :=
  { isReady := true, useFallback := true,
    availableVoices := ["browser-speech-synthesis"] }

/-! ### Theorems -/

/-- C9: if the worker is ready and the `SPEAK` text is non-empty after
trimming, the worker replies with exactly one message, a
`SPEAK_REQUEST` carrying the trimmed text (voice id defaulted) with
`fallbackToMainThread` set, leaves its state unchanged, and produces
no `AUDIO` buffer, so synthesis is always delegated to the main-thread
synthesizer. -/
theorem worker_speak_delegates (cfg : Config) (ws : WorkerState)
    (t : String) (v : Option String)
    (hready : ws.isReady = true) (ht : jsTrim t ≠ "") :
    workerStep cfg ws (.speakMsg (some t) v)
      = (ws, [WorkerOut.speakRequest (jsTrim t)
                (v.getD "browser-speech-synthesis") true])
    ∧ ∀ m ∈ (workerStep cfg ws (.speakMsg (some t) v)).2,
        m.isAudio = false := by
  refine ⟨by simp [workerStep, hready, ht], ?_⟩
  intro m hm
  simp [workerStep, hready, ht] at hm
  simp [hm, WorkerOut.isAudio]

/-- Witness for C9 at a concrete ready worker and the text "hello ". -/
theorem worker_speak_delegates_witness :
    workerStep cfg0 wsReady (.speakMsg (some "hello ") none)
      = (wsReady, [WorkerOut.speakRequest "hello" "browser-speech-synthesis" true])
    ∧ ∀ m ∈ (workerStep cfg0 wsReady (.speakMsg (some "hello ") none)).2,
        m.isAudio = false := by
  have h := worker_speak_delegates cfg0 wsReady "hello " none
    (by decide) (by decide)
  simpa using h

/-- C10: a `SPEAK` whose text is missing or whitespace-only, received
while the worker is ready, yields exactly one `ERROR` message reading
"No text provided", no `SPEAK_REQUEST`, and unchanged worker state. -/
theorem worker_speak_empty_text (cfg : Config) (ws : WorkerState)
    (v : Option String) (hready : ws.isReady = true) :
    workerStep cfg ws (.speakMsg none v)
      = (ws, [WorkerOut.errMsg "No text provided"])
    ∧ ∀ t, jsTrim t = "" →
        workerStep cfg ws (.speakMsg (some t) v)
          = (ws, [WorkerOut.errMsg "No text provided"]) := by
  refine ⟨by simp [workerStep, hready], ?_⟩
  intro t ht
  simp [workerStep, hready, ht]

/-- Witness for C10 at a concrete ready worker with missing and with
whitespace-only text. -/
theorem worker_speak_empty_text_witness :
    workerStep cfg0 wsReady (.speakMsg none none)
      = (wsReady, [WorkerOut.errMsg "No text provided"])
    ∧ workerStep cfg0 wsReady (.speakMsg (some "  ") none)
      = (wsReady, [WorkerOut.errMsg "No text provided"]) := by
  have h := worker_speak_empty_text cfg0 wsReady none (by decide)
  exact ⟨h.1, h.2 "  " (by decide)⟩

/-- `releaseWindowLock` touches only the `window.isTTSLocked` slot. -/
theorem releaseWindowLock_tts (s : SysState) :
    (releaseWindowLock s).tts = s.tts := by
  unfold releaseWindowLock
  cases s.windowIsTTSLocked <;> simp

/-- `releaseWindowLock` preserves the component state. -/
theorem releaseWindowLock_comp (s : SysState) :
    (releaseWindowLock s).comp = s.comp := by
  unfold releaseWindowLock
  cases s.windowIsTTSLocked <;> simp

/-- `hookStop` does not change `useFallback`. -/
theorem hookStop_useFallback (s : SysState) :
    (hookStop s).tts.useFallback = s.tts.useFallback := by
  simp [hookStop]

/-- `hookSpeak` does not change `useFallback`. -/
theorem hookSpeak_useFallback (s : SysState) (t : String) :
    (hookSpeak s t).tts.useFallback = s.tts.useFallback := by
  unfold hookSpeak
  split
  · rfl
  split
  · simp
  split <;> simp [spawnBrowserSpeech]

/-- The hook's message handler never turns `useFallback` off. -/
theorem hookHandle_useFallback (cfg : Config) (s : SysState)
    (m : WorkerOut) (h : s.tts.useFallback = true) :
    (hookHandle cfg s m).tts.useFallback = true := by
  cases m <;> simp only [hookHandle] <;>
    first
    | exact h
    | (split <;> first
        | exact h
        | simp [spawnBrowserSpeech, h]
        | (split <;> simp [spawnBrowserSpeech, h]))

/-- No system step ever turns `useFallback` off. -/
theorem sysStep_useFallback_mono (cfg : Config) (s : SysState) (ev : Ev)
    (h : s.tts.useFallback = true) :
    ((sysStep cfg s ev).1).tts.useFallback = true := by
  cases ev with
  | recStart => exact h
  | recResult rs =>
      simp only [sysStep, onResult, sendToGeminiMount, setCompError]
      repeat' split
      all_goals exact h
  | recError c m => exact h
  | recEnd => exact h
  | userStartRecording =>
      simp only [sysStep]; split <;> exact h
  | userStopRecording =>
      simp only [sysStep]; split <;> exact h
  | userClear =>
      simp only [sysStep]
      rw [hookStop_useFallback]; exact h
  | userStopSpeaking =>
      simp only [sysStep]
      rw [hookStop_useFallback]; exact h
  | debounceFire =>
      simp only [sysStep, sendToGeminiFresh, setCompError]
      repeat' split
      all_goals exact h
  | genSuccess t =>
      simp only [sysStep]; repeat' split
      all_goals exact h
  | genFailure m =>
      simp only [sysStep]; repeat' split
      all_goals exact h
  | autoSpeakFire =>
      simp only [sysStep, autoSpeakBody]
      repeat' split
      all_goals first
        | exact h
        | (rw [hookSpeak_useFallback]; exact h)
  | clearResponseFire =>
      simp only [sysStep]; split <;> exact h
  | browserSpeechStart =>
      simp only [sysStep]; split <;> exact h
  | browserResolveNoStart =>
      simp only [sysStep, releaseWindowLock]
      repeat' split
      all_goals exact h
  | browserReject m =>
      simp only [sysStep, releaseWindowLock]
      repeat' split
      all_goals exact h
  | initCall v =>
      simp only [sysStep]; split <;> exact h
  | initTimeoutFire =>
      simp only [sysStep]; split
      · rfl
      · exact h
  | workerProcess =>
      simp only [sysStep]; split <;> exact h
  | hookRecv =>
      simp only [sysStep]; split
      · exact h
      · exact hookHandle_useFallback cfg _ _ h

/-- A session in which (fallback) initialization has completed, with
the init timeout still pending. -/
def sFallback : SysState :=
  { SysState.init with
      tts := { TTSState.init with
                  isInitialized := true, useFallback := true,
                  initTimeoutArmed := true } }

/-- C5: when synthesis initialization fails (the worker `INIT` handler
always ends in its catch-block) the worker enters fallback mode and
emits exactly one `READY` event, with the fallback flag set; once
`usesFallback` is true no system step ever reverts it; the hook's init
timeout also switches to fallback; and a `speak` call in fallback mode
posts nothing to the worker, resolving via the main-thread fallback
path instead. -/
theorem synthesis_fallback_permanent :
    (∀ cfg : Config, ∀ ws : WorkerState, ∀ v : Option String,
       (workerStep cfg ws (.initMsg v)).1.useFallback = true
       ∧ (workerStep cfg ws (.initMsg v)).1.isReady = true
       ∧ ((workerStep cfg ws (.initMsg v)).2.filter
            (fun m => m.isReadyMsg)).length = 1
       ∧ ∀ m ∈ (workerStep cfg ws (.initMsg v)).2, m.isReadyMsg = true →
           m = WorkerOut.ready "browser-speech-synthesis" true)
    ∧ (∀ cfg : Config, ∀ s : SysState, ∀ ev : Ev,
         s.tts.useFallback = true →
         ((sysStep cfg s ev).1).tts.useFallback = true)
    ∧ (∀ cfg : Config, ∀ s : SysState, s.tts.initTimeoutArmed = true →
         ((sysStep cfg s .initTimeoutFire).1).tts.useFallback = true)
    ∧ (∀ s : SysState, ∀ t : String, s.tts.useFallback = true →
         (hookSpeak s t).toWorker = s.toWorker
         ∧ (s.tts.isSpeaking = false → s.tts.isInitialized = true →
              (hookSpeak s t).tts.browserInFlight = true)) := by
  refine ⟨?_, sysStep_useFallback_mono, ?_, ?_⟩
  · intro cfg ws v
    refine ⟨rfl, rfl, rfl, ?_⟩
    intro m hm hr
    simp [workerStep] at hm
    rcases hm with hm | hm <;> simp [hm, WorkerOut.isReadyMsg] at hr ⊢
  · intro cfg s harm
    simp only [sysStep, harm]
    simp
  · intro s t h
    by_cases hsp : s.tts.isSpeaking = true
    · refine ⟨by simp [hookSpeak, hsp], ?_⟩
      intro h1 _
      simp [h1] at hsp
    · by_cases hinit : s.tts.isInitialized = true
      · exact ⟨by simp [hookSpeak, hsp, hinit, h, spawnBrowserSpeech],
          fun _ _ => by simp [hookSpeak, hsp, hinit, h, spawnBrowserSpeech]⟩
      · simp only [Bool.not_eq_true] at hinit
        refine ⟨by simp [hookSpeak, hsp, hinit], ?_⟩
        intro _ h2
        simp [hinit] at h2

/-- `hookSpeak` never touches the component state. -/
theorem hookSpeak_comp (s : SysState) (t : String) :
    (hookSpeak s t).comp = s.comp := by
  unfold hookSpeak
  repeat' split
  all_goals simp [spawnBrowserSpeech]

/-- `hookStop` never touches the component state. -/
theorem hookStop_comp (s : SysState) :
    (hookStop s).comp = s.comp := by
  simp [hookStop]

/-- The hook's message handler never touches the component state. -/
theorem hookHandle_comp (cfg : Config) (s : SysState) (m : WorkerOut) :
    (hookHandle cfg s m).comp = s.comp := by
  cases m <;> simp only [hookHandle] <;> repeat' split
  all_goals simp [spawnBrowserSpeech]

/-- One step never pushes the auto-speak attempt counter past 3: the
only increment site first returns when the counter is already ≥ 3. -/
theorem sysStep_attempts_le (cfg : Config) (s : SysState) (ev : Ev)
    (h : s.comp.autoSpeakAttempts ≤ 3) :
    ((sysStep cfg s ev).1).comp.autoSpeakAttempts ≤ 3 := by
  cases ev with
  | recStart => exact h
  | recResult rs =>
      simp only [sysStep, onResult, sendToGeminiMount, setCompError]
      repeat' split
      all_goals exact h
  | recError c m => exact h
  | recEnd => exact h
  | userStartRecording => simp only [sysStep]; split <;> exact h
  | userStopRecording => simp only [sysStep]; split <;> exact h
  | userClear =>
      simp only [sysStep]
      rw [hookStop_comp]; exact h
  | userStopSpeaking =>
      simp only [sysStep]
      rw [hookStop_comp]; exact h
  | debounceFire =>
      simp only [sysStep, sendToGeminiFresh, setCompError]
      repeat' split
      all_goals first
        | exact h
        | (show (0 : Nat) ≤ 3; omega)
  | genSuccess t => simp only [sysStep]; repeat' split
                    all_goals exact h
  | genFailure m => simp only [sysStep]; repeat' split
                    all_goals exact h
  | autoSpeakFire =>
      simp only [sysStep, autoSpeakBody]
      split
      · split
        · exact h
        · split
          · exact h
          · rename_i hguard hge hlock
            rw [hookSpeak_comp]
            show s.comp.autoSpeakAttempts + 1 ≤ 3
            omega
      · exact h
  | clearResponseFire => simp only [sysStep]; split <;> exact h
  | browserSpeechStart => simp only [sysStep]; split <;> exact h
  | browserResolveNoStart =>
      simp only [sysStep, releaseWindowLock]
      repeat' split
      all_goals exact h
  | browserReject m =>
      simp only [sysStep, releaseWindowLock]
      repeat' split
      all_goals exact h
  | initCall v => simp only [sysStep]; split <;> exact h
  | initTimeoutFire => simp only [sysStep]; split <;> exact h
  | workerProcess => simp only [sysStep]; split <;> exact h
  | hookRecv =>
      simp only [sysStep]; split
      · exact h
      · rw [hookHandle_comp]; exact h

/-- A whole run keeps the attempt counter within the bound. -/
theorem runFrom_attempts_le (cfg : Config) (evs : List Ev) :
    ∀ s : SysState, s.comp.autoSpeakAttempts ≤ 3 →
      (runFrom cfg s evs).comp.autoSpeakAttempts ≤ 3 := by
  induction evs with
  | nil => intro s h; exact h
  | cons e rest ih =>
      intro s h
      simp only [runFrom, List.foldl] at *
      exact ih _ (sysStep_attempts_le cfg s e h)

/-- A session holding a pending response with the attempt counter at
the circuit-breaker limit. -/
def sBreaker : SysState :=
  { SysState.init with
      comp := { CompState.init with
                   generatedResponse := "Hi.", autoSpeakAttempts := 3 },
      tts := { TTSState.init with isInitialized := true } }

/-- A recording session with a stable non-empty transcript, about to
trigger generation. -/
def sDebounce : SysState :=
  { SysState.init with
      comp := { CompState.init with
                   isRecording := true, transcription := "hi " },
      tts := { TTSState.init with isInitialized := true } }

/-- C1: over every run the auto-speak attempt counter never exceeds 3;
when the auto-speak trigger fires with the limit reached it marks the
response spoken, force-releases the SpeakingLock, sets no user-facing
error and does not bump the counter; and any step that begins a new
generation resets the counter to 0. -/
theorem autoSpeak_circuit_breaker :
    (∀ cfg : Config, ∀ evs : List Ev,
       (runSys cfg evs).comp.autoSpeakAttempts ≤ 3)
    ∧ (∀ cfg : Config, ∀ s : SysState,
         autoSpeakGuard s = true → s.comp.autoSpeakAttempts ≥ 3 →
         ((sysStep cfg s .autoSpeakFire).1).comp.hasSpokenResponse = true
         ∧ ((sysStep cfg s .autoSpeakFire).1).comp.isTTSLocked = false
         ∧ ((sysStep cfg s .autoSpeakFire).1).comp.error = s.comp.error
         ∧ ((sysStep cfg s .autoSpeakFire).1).tts.error = s.tts.error
         ∧ ((sysStep cfg s .autoSpeakFire).1).comp.autoSpeakAttempts
             = s.comp.autoSpeakAttempts)
    ∧ (∀ cfg : Config, ∀ s : SysState, ∀ ev : Ev,
         s.comp.isGenerating = false →
         ((sysStep cfg s ev).1).comp.isGenerating = true →
         ((sysStep cfg s ev).1).comp.autoSpeakAttempts = 0) := by
  refine ⟨?_, ?_, ?_⟩
  · intro cfg evs
    exact runFrom_attempts_le cfg evs SysState.init (by decide)
  · intro cfg s hguard hge
    simp only [sysStep, autoSpeakBody]
    rw [if_pos hguard, if_pos hge]
    exact ⟨rfl, rfl, rfl, rfl, rfl⟩
  · intro cfg s ev h hgen
    cases ev with
    | recStart => simp [sysStep, h] at hgen
    | recResult rs =>
        simp only [sysStep, onResult, sendToGeminiMount, setCompError] at hgen
        repeat' split at hgen
        all_goals simp [h] at hgen
    | recError c m => simp [sysStep, h] at hgen
    | recEnd => simp [sysStep, h] at hgen
    | userStartRecording =>
        simp only [sysStep] at hgen
        split at hgen <;> simp [h] at hgen
    | userStopRecording =>
        simp only [sysStep] at hgen
        split at hgen <;> simp [h] at hgen
    | userClear =>
        simp only [sysStep] at hgen
        rw [hookStop_comp] at hgen
        simp [h] at hgen
    | userStopSpeaking =>
        simp only [sysStep] at hgen
        rw [hookStop_comp] at hgen
        simp [h] at hgen
    | debounceFire =>
        simp only [sysStep] at hgen ⊢
        split at hgen
        case isTrue hguard =>
          rw [if_pos hguard]
          by_cases c1 : cfg.apiKeyConfigured = false
          · simp [sendToGeminiFresh, setCompError, c1, h] at hgen
          · by_cases c2 : s.tts.isInitialized = false
            · simp [sendToGeminiFresh, setCompError, c1, c2, h] at hgen
            · by_cases c3 : s.comp.transcription = ""
              · simp [sendToGeminiFresh, setCompError, c1, c2, c3, h] at hgen
              · simp [sendToGeminiFresh, setCompError, c1, c2, c3]
        case isFalse => simp [h] at hgen
    | genSuccess t =>
        simp only [sysStep] at hgen
        repeat' split at hgen
        all_goals simp [h] at hgen
    | genFailure m =>
        simp only [sysStep] at hgen
        repeat' split at hgen
        all_goals simp [h] at hgen
    | autoSpeakFire =>
        simp only [sysStep, autoSpeakBody] at hgen
        repeat' split at hgen
        all_goals first
          | (rw [hookSpeak_comp] at hgen; simp [h] at hgen)
          | simp [h] at hgen
    | clearResponseFire =>
        simp only [sysStep] at hgen
        split at hgen <;> simp [h] at hgen
    | browserSpeechStart =>
        simp only [sysStep] at hgen
        split at hgen <;> simp [h] at hgen
    | browserResolveNoStart =>
        simp only [sysStep, releaseWindowLock] at hgen
        repeat' split at hgen
        all_goals simp [h] at hgen
    | browserReject m =>
        simp only [sysStep, releaseWindowLock] at hgen
        repeat' split at hgen
        all_goals simp [h] at hgen
    | initCall v =>
        simp only [sysStep] at hgen
        split at hgen <;> simp [h] at hgen
    | initTimeoutFire =>
        simp only [sysStep] at hgen
        split at hgen <;> simp [h] at hgen
    | workerProcess =>
        simp only [sysStep] at hgen
        split at hgen <;> simp [h] at hgen
    | hookRecv =>
        simp only [sysStep] at hgen
        split at hgen
        · simp [h] at hgen
        · rw [hookHandle_comp] at hgen
          simp [h] at hgen

/-- Witness for C1: the empty run, a breaker trip at a concrete
at-limit session, and a concrete debounce-triggered generation
resetting the counter. -/
theorem autoSpeak_circuit_breaker_witness :
    (runSys cfg0 []).comp.autoSpeakAttempts ≤ 3
    ∧ ((sysStep cfg0 sBreaker .autoSpeakFire).1).comp.hasSpokenResponse = true
    ∧ ((sysStep cfg0 sBreaker .autoSpeakFire).1).comp.isTTSLocked = false
    ∧ ((sysStep cfg0 sDebounce .debounceFire).1).comp.autoSpeakAttempts = 0 := by
  refine ⟨autoSpeak_circuit_breaker.1 cfg0 [], ?_, ?_, ?_⟩
  · exact (autoSpeak_circuit_breaker.2.1 cfg0 sBreaker (by decide) (by decide)).1
  · exact (autoSpeak_circuit_breaker.2.1 cfg0 sBreaker (by decide) (by decide)).2.1
  · exact autoSpeak_circuit_breaker.2.2 cfg0 sDebounce .debounceFire
      (by decide) (by decide)

/-- Concatenation of the finalized segments of a whole sequence of
result events, in arrival order, each with its trailing space. -/
def finalsConcat : List (List RecSeg) → String
  | [] => ""
  | e :: rest => finalsOf e ++ finalsConcat rest

/-- A result event appends exactly its finalized segments (with
trailing spaces) to the transcript. -/
theorem recResult_transcription (cfg : Config) (s : SysState)
    (rs : List RecSeg) :
    ((sysStep cfg s (.recResult rs)).1).comp.transcription
      = s.comp.transcription ++ finalsOf rs := by
  simp only [sysStep, onResult, sendToGeminiMount, setCompError]
  by_cases hf : finalsOf rs = ""
  · simp [hf, String.append_empty]
  · simp only [ne_eq, hf, not_false_iff, if_true]
    split <;> rfl

/-- C3: running any sequence of result events appends exactly the
finalized segments, in arrival order, each followed by its space
separator; every result event replaces the interim segment outright
with the event's own interim text; and a stream-end event clears the
interim segment. -/
theorem transcript_accumulation :
    (∀ cfg : Config, ∀ ess : List (List RecSeg), ∀ s : SysState,
       (runFrom cfg s (ess.map Ev.recResult)).comp.transcription
         = s.comp.transcription ++ finalsConcat ess)
    ∧ (∀ cfg : Config, ∀ s : SysState, ∀ rs : List RecSeg,
       ((sysStep cfg s (.recResult rs)).1).comp.interimTranscript
         = interimsOf rs)
    ∧ (∀ cfg : Config, ∀ s : SysState,
       ((sysStep cfg s .recEnd).1).comp.interimTranscript = "") := by
  refine ⟨?_, fun cfg s rs => rfl, fun cfg s => rfl⟩
  intro cfg ess
  induction ess with
  | nil =>
      intro s
      simp [runFrom, finalsConcat, String.append_empty]
  | cons e rest ih =>
      intro s
      have hstep : runFrom cfg s ((e :: rest).map Ev.recResult)
          = runFrom cfg ((sysStep cfg s (.recResult e)).1)
              (rest.map Ev.recResult) := rfl
      rw [hstep, ih, recResult_transcription, String.append_assoc]
      rfl

/-- C4: a reasoning-client request is emitted only by the debounce
timer firing, and then the transcript is non-empty (also after
trimming), no generation is in flight, no generated response is
pending, recording is active, and the payload is the trimmed
transcript.  In particular generation is never triggered while
`isGenerating` holds or a response is pending.  (The direct
`sendToGemini()` call inside `recognition.onresult` closed over the
mount render, where `ttsInitialized` was false, so it never reaches
the fetch and emits nothing.) -/
theorem generation_trigger_guarded (cfg : Config) (s : SysState)
    (ev : Ev) (p : String)
    (hmem : Action.genRequest p ∈ (sysStep cfg s ev).2) :
    ev = .debounceFire
    ∧ s.comp.isRecording = true
    ∧ jsTrim s.comp.transcription ≠ ""
    ∧ s.comp.transcription ≠ ""
    ∧ s.comp.isGenerating = false
    ∧ s.comp.generatedResponse = ""
    ∧ p = jsTrim s.comp.transcription := by
  cases ev
  case debounceFire =>
    simp only [sysStep] at hmem
    split at hmem
    case isFalse => simp at hmem
    case isTrue hguard =>
      have hparts := hguard
      simp only [debounceGuard, Bool.and_eq_true, bne_iff_ne, ne_eq,
        beq_iff_eq, Bool.not_eq_true'] at hparts
      obtain ⟨⟨⟨hrec, htrim⟩, hgen⟩, hresp⟩ := hparts
      simp only [sendToGeminiFresh, setCompError] at hmem
      split at hmem
      · simp at hmem
      · split at hmem
        · simp at hmem
        · split at hmem
          case isTrue htr =>
            simp [hrec] at hmem
          case isFalse htr =>
            simp [hrec] at hmem
            exact ⟨rfl, hrec, htrim, htr, hgen, hresp, hmem⟩
  all_goals
    simp only [sysStep] at hmem
    repeat' split at hmem
    all_goals simp at hmem

/-- Witness for C4 at a concrete recording session with a stable
transcript. -/
theorem generation_trigger_guarded_witness :
    Ev.debounceFire = Ev.debounceFire
    ∧ sDebounce.comp.isRecording = true
    ∧ jsTrim sDebounce.comp.transcription ≠ ""
    ∧ sDebounce.comp.transcription ≠ ""
    ∧ sDebounce.comp.isGenerating = false
    ∧ sDebounce.comp.generatedResponse = ""
    ∧ "hi" = jsTrim sDebounce.comp.transcription := by
  exact generation_trigger_guarded cfg0 sDebounce .debounceFire "hi"
    (by decide)

/-- A session whose response has been spoken and whose synthesis
audibly started. -/
def sSpoken : SysState :=
  { SysState.init with
      comp := { CompState.init with
                   generatedResponse := "Hi.", hasSpokenResponse := true,
                   ttsActuallyStarted := true } }

/-- C6: the clear-response grace timer leaves the whole state
untouched when TTS never actually started; when its guard holds
(speaking ended, spoken non-empty response present, and
`ttsActuallyStarted` set) it clears the response and resets the flags;
and whenever it changes the response at all, speech had audibly begun
(and the turn had been marked spoken, and speaking had ended). -/
theorem clear_response_requires_started :
    (∀ cfg : Config, ∀ s : SysState, s.comp.ttsActuallyStarted = false →
       (sysStep cfg s .clearResponseFire).1 = s)
    ∧ (∀ cfg : Config, ∀ s : SysState, clearResponseGuard s = true →
       ((sysStep cfg s .clearResponseFire).1).comp.generatedResponse = ""
       ∧ ((sysStep cfg s .clearResponseFire).1).comp.hasSpokenResponse = false
       ∧ ((sysStep cfg s .clearResponseFire).1).comp.ttsActuallyStarted = false)
    ∧ (∀ cfg : Config, ∀ s : SysState,
       ((sysStep cfg s .clearResponseFire).1).comp.generatedResponse
           ≠ s.comp.generatedResponse →
       s.comp.ttsActuallyStarted = true ∧ s.tts.isSpeaking = false
       ∧ s.comp.hasSpokenResponse = true) := by
  refine ⟨?_, ?_, ?_⟩
  · intro cfg s h
    have hg : clearResponseGuard s = false := by
      simp [clearResponseGuard, h]
    simp [sysStep, hg]
  · intro cfg s hg
    simp [sysStep, hg]
  · intro cfg s hne
    by_cases hg : clearResponseGuard s = true
    · have hparts := hg
      simp only [clearResponseGuard, Bool.and_eq_true, bne_iff_ne, ne_eq,
        Bool.not_eq_true'] at hparts
      obtain ⟨⟨⟨⟨hsp, _⟩, _⟩, hspk⟩, hst⟩ := hparts
      exact ⟨hst, hsp, hspk⟩
    · exfalso
      apply hne
      simp [sysStep, hg]

/-- Witness for C6: the initial session is untouched by the timer, and
at a concrete spoken-and-started session the timer clears the
response. -/
theorem clear_response_requires_started_witness :
    (sysStep cfg0 SysState.init .clearResponseFire).1 = SysState.init
    ∧ ((sysStep cfg0 sSpoken .clearResponseFire).1).comp.generatedResponse = ""
    ∧ (sSpoken.comp.ttsActuallyStarted = true ∧ sSpoken.tts.isSpeaking = false
       ∧ sSpoken.comp.hasSpokenResponse = true) := by
  refine ⟨clear_response_requires_started.1 cfg0 SysState.init (by decide),
    (clear_response_requires_started.2.1 cfg0 sSpoken (by decide)).1,
    clear_response_requires_started.2.2 cfg0 sSpoken (by decide)⟩

/-- A session holding the previous turn's transcript, interim text and
a pending unspoken response, with the lock still held. -/
def sPrevTurn : SysState :=
  { SysState.init with
      comp := { CompState.init with
                   transcription := "hello ", interimTranscript := "yo",
                   generatedResponse := "Hi there.", isTTSLocked := true } }

/-- Counterexample to C7 as stated: starting a new recording from Idle
does NOT clear the previous turn's transcript (nor the interim text) —
`startRecording` in `WebSpeechRecognition.tsx` only releases the TTS
lock and calls `recognition.start()`. -/
theorem startRecording_counterexample :
    ((sysStep cfg0 sPrevTurn .userStartRecording).1).comp.transcription
      = "hello "
    ∧ ((sysStep cfg0 sPrevTurn .userStartRecording).1).comp.interimTranscript
      = "yo"
    ∧ ¬((sysStep cfg0 sPrevTurn .userStartRecording).1).comp.transcription
      = "" := by
  decide

/-- C7 (amended): starting a new recording from Idle releases the
SpeakingLock, starts the recognizer, and leaves the transcript, the
interim text and a pending not-yet-spoken generatedResponse unchanged
(so a late auto-speak can still fire). -/
theorem startRecording_preserves_state (cfg : Config) (s : SysState)
    (h : s.comp.isRecording = false) :
    ((sysStep cfg s .userStartRecording).1).comp.transcription
      = s.comp.transcription
    ∧ ((sysStep cfg s .userStartRecording).1).comp.interimTranscript
      = s.comp.interimTranscript
    ∧ ((sysStep cfg s .userStartRecording).1).comp.generatedResponse
      = s.comp.generatedResponse
    ∧ ((sysStep cfg s .userStartRecording).1).comp.hasSpokenResponse
      = s.comp.hasSpokenResponse
    ∧ ((sysStep cfg s .userStartRecording).1).comp.isTTSLocked = false
    ∧ Action.recognitionStart ∈ (sysStep cfg s .userStartRecording).2 := by
  simp [sysStep, h]

/-- Witness for C7 (amended) at the concrete previous-turn session. -/
theorem startRecording_preserves_state_witness :
    ((sysStep cfg0 sPrevTurn .userStartRecording).1).comp.generatedResponse
      = sPrevTurn.comp.generatedResponse
    ∧ ((sysStep cfg0 sPrevTurn .userStartRecording).1).comp.isTTSLocked
      = false := by
  have h := startRecording_preserves_state cfg0 sPrevTurn (by decide)
  exact ⟨h.2.2.1, h.2.2.2.2.1⟩

/-- An idle session still displaying an earlier synthesis error. -/
def sErr : SysState :=
  { SysState.init with
      tts := { TTSState.init with error := some "TTS error: boom" } }

/-- Counterexample to C8 as stated: calling stop while nothing is
speaking and nothing is pending DOES change state when an error
message is displayed — `stop` unconditionally clears the error slot. -/
theorem stop_counterexample :
    sErr.tts.isSpeaking = false ∧ sErr.plat.speaking = false
    ∧ sErr.plat.pending = false
    ∧ ¬(sysStep cfg0 sErr .userStopSpeaking).1 = sErr := by
  decide

/-- C8 (amended): stop is idempotent (a second stop is a no-op), it
never raises an error (the error slot is clear afterwards), and when
nothing is speaking or pending, no error is displayed and no utterance
reference is retained it causes no state change at all. -/
theorem stop_idempotent :
    (∀ cfg : Config, ∀ s : SysState,
       (sysStep cfg ((sysStep cfg s .userStopSpeaking).1)
           .userStopSpeaking).1
         = (sysStep cfg s .userStopSpeaking).1)
    ∧ (∀ cfg : Config, ∀ s : SysState,
       s.tts.isSpeaking = false → s.plat.speaking = false →
       s.plat.pending = false → s.tts.error = none →
       s.tts.synthRefHeld = false →
       (sysStep cfg s .userStopSpeaking).1 = s)
    ∧ (∀ cfg : Config, ∀ s : SysState,
       ((sysStep cfg s .userStopSpeaking).1).tts.error = none) := by
  refine ⟨?_, ?_, fun cfg s => rfl⟩
  · intro cfg s
    cases s with
    | mk comp tts worker plat win tw fw =>
      cases plat with
      | mk sp pe => cases sp <;> cases pe <;> simp [sysStep, hookStop]
  · intro cfg s h1 h2 h3 h4 h5
    cases s with
    | mk comp tts worker plat win tw fw =>
      cases tts; cases plat
      simp_all [sysStep, hookStop]

/-- Witness for C8 (amended): idempotence at the concrete error
session, and no-op at the pristine initial session. -/
theorem stop_idempotent_witness :
    (sysStep cfg0 ((sysStep cfg0 sErr .userStopSpeaking).1)
        .userStopSpeaking).1
      = (sysStep cfg0 sErr .userStopSpeaking).1
    ∧ (sysStep cfg0 SysState.init .userStopSpeaking).1 = SysState.init := by
  exact ⟨stop_idempotent.1 cfg0 sErr,
    stop_idempotent.2.1 cfg0 SysState.init (by decide) (by decide)
      (by decide) (by decide) (by decide)⟩

/-- A full conversation turn in which browser synthesis never starts:
init (worker falls back), a recognized final segment, debounce-driven
generation, the response arriving, auto-speak firing (taking the
lock), and the browser-speech promise settling without speech onset. -/
def lockLeakTrace : List Ev :=
  [ .initCall (some "en_US-lessac-medium"), .workerProcess, .hookRecv,
    .hookRecv, .recStart, .recResult [⟨"hi", true⟩], .debounceFire,
    .recEnd, .genSuccess "Hello.", .autoSpeakFire, .browserResolveNoStart ]

/-- C2 evaluated at the failing run: auto-speak acquires the
SpeakingLock (`isTTSLocked`), the fallback speak operation terminates
(speech failed to start within its timeout; the promise settled, so
the `finally` ran), yet the component's lock is still held — the
release in `useTTS` targets `window.isTTSLocked`, which no code ever
attaches, so it is a no-op and the lock leaks. -/
theorem speak_lock_leak :
    ((runSys cfg0 (lockLeakTrace.take 10)).comp.isTTSLocked = true
     ∧ (runSys cfg0 (lockLeakTrace.take 10)).tts.browserInFlight = true)
    ∧ ((runSys cfg0 lockLeakTrace).tts.browserInFlight = false
       ∧ (runSys cfg0 lockLeakTrace).tts.isSpeaking = false
       ∧ (runSys cfg0 lockLeakTrace).comp.isTTSLocked = true) := by
  decide

/-- Witness for C5: the worker's `INIT` reply from the initial state,
monotonicity at a concrete fallback session, the init timeout at that
session, and a fallback `speak` posting nothing to the worker. -/
theorem synthesis_fallback_permanent_witness :
    (workerStep cfg0 WorkerState.init (.initMsg none)).1.useFallback = true
    ∧ ((sysStep cfg0 sFallback .userStopSpeaking).1).tts.useFallback = true
    ∧ ((sysStep cfg0 sFallback .initTimeoutFire).1).tts.useFallback = true
    ∧ (hookSpeak sFallback "hello").toWorker = sFallback.toWorker
    ∧ (hookSpeak sFallback "hello").tts.browserInFlight = true := by
  refine ⟨(synthesis_fallback_permanent.1 cfg0 WorkerState.init none).1,
    synthesis_fallback_permanent.2.1 cfg0 sFallback .userStopSpeaking
      (by decide),
    synthesis_fallback_permanent.2.2.1 cfg0 sFallback (by decide),
    (synthesis_fallback_permanent.2.2.2 sFallback "hello" (by decide)).1,
    (synthesis_fallback_permanent.2.2.2 sFallback "hello" (by decide)).2
      (by decide) (by decide)⟩

end Vocalite
